import Mathlib

/-! Verification of `automations.py`: a shallow embedding in Lean 4 of the
retrying HTTP helper (`make_request_with_retries`), the paginated fetcher
(`simple_get_with_pagination`), the login helper (`fetch_token`) and the
record transformer (`process_json_data`), together with theorems settling
the behavioural claims about them.

Network I/O is modelled by a function `net : Nat → HttpResponse α` giving
the response to the n-th HTTP request issued overall; `time.sleep` calls
are recorded in a trace rather than performed; Python exceptions become an
explicit `Except` result; the non-terminating loop in the retry helper is
run on explicit fuel, with `none` meaning the loop is still running after
that many iterations.
-/

namespace Automations

/-- Query parameters: a Python dict from parameter name to value, modelled
as an association list keyed by first occurrence. -/
abbrev Params := List (String × Nat)

/-- Python `d[k] = v`: overwrite the entry in place if the key exists,
otherwise append it. -/
def setParam (ps : Params) (k : String) (v : Nat) : Params :=
  if ps.any (fun p => p.1 = k) then
    ps.map (fun p => if p.1 = k then (k, v) else p)
  else
    ps ++ [(k, v)]

/-- Python `d.get(k)`: value of the first entry with key `k`, if any. -/
def getParam (ps : Params) (k : String) : Option Nat :=
  (ps.find? (fun p => p.1 = k)).map (fun p => p.2)

/-- The JSON body shape the pagination code reads (`docs` and `pages`),
together with the HTTP status code of the response. -/
structure HttpResponse (α : Type) where
  status : Nat
  docs : List α
  pages : Nat
deriving DecidableEq

/-- One HTTP request as issued by `requests.request(method, url,
headers=headers, params=params, json=data)`. -/
structure Request where
  method : String
  url : String
  headers : List (String × String)
  params : Params
  body : Option String
deriving DecidableEq, Inhabited

/-- The exceptions `make_request_with_retries` can raise: `httpError s` is
the `requests.exceptions.HTTPError` produced by `response.raise_for_status()`
on status `s`; `allRetriesFailed url` is the final
`Exception(f"All retries failed for {url}")`. -/
inductive ReqError where
  | httpError (status : Nat)
  | allRetriesFailed (url : String)
deriving DecidableEq

deriving instance DecidableEq for Except

/-- Result of running `make_request_with_retries` on some fuel: the
outcome (`none` while the loop is still running, otherwise the returned
response or the raised exception), the list of requests issued, and the
list of `time.sleep` durations performed, in order. -/
structure ReqRun (α : Type) where
  outcome : Option (Except ReqError (HttpResponse α))
  requests : List Request
  sleeps : List Nat
deriving DecidableEq

/-- The retriable status codes tested by
`response.status_code in [429, 500, 502, 503, 504]`. -/
def retriable (s : Nat) : Bool :=
  s == 429 || s == 500 || s == 502 || s == 503 || s == 504

/-- `response.raise_for_status()` raises `HTTPError` exactly for client and
server error statuses (400 ≤ status < 600). -/
def raisesForStatus (s : Nat) : Bool :=
  400 ≤ s && s < 600

/-- The `while retry_count <= max_retries` loop of
`make_request_with_retries`, one recursive call per iteration.
State: `retryCount` and `delay` as in the source; `attempt` is the index
of the next request into `net`. Branches, in source order: status 200
returns the response; a retriable status sleeps `delay`, doubles it and
increments `retryCount`; any other status calls `raise_for_status()` —
if that raises (4xx/5xx), the `HTTPError` is caught by the
`except RequestException` handler, which re-raises it when
`retry_count >= max_retries` and otherwise sleeps, doubles the delay and
increments the count; if it does not raise (e.g. 201 or a 3xx), the loop
body falls through and repeats with state unchanged. When the loop guard
fails, the final `Exception` naming the URL is raised. -/
def requestLoop (net : Nat → HttpResponse α) (method url : String)
    (headers : List (String × String)) (params : Params) (body : Option String)
    (maxRetries : Nat) :
    Nat → Nat → Nat → Nat → ReqRun α
  | 0, _, _, _ => ⟨none, [], []⟩
  | fuel + 1, retryCount, delay, attempt =>
    if retryCount ≤ maxRetries then
      let req : Request := ⟨method, url, headers, params, body⟩
      let r := net attempt
      if r.status = 200 then
        ⟨some (.ok r), [req], []⟩
      else if retriable r.status then
        let rest := requestLoop net method url headers params body maxRetries
          fuel (retryCount + 1) (delay * 2) (attempt + 1)
        ⟨rest.outcome, req :: rest.requests, delay :: rest.sleeps⟩
      else if raisesForStatus r.status then
        if maxRetries ≤ retryCount then
          ⟨some (.error (.httpError r.status)), [req], []⟩
        else
          let rest := requestLoop net method url headers params body maxRetries
            fuel (retryCount + 1) (delay * 2) (attempt + 1)
          ⟨rest.outcome, req :: rest.requests, delay :: rest.sleeps⟩
      else
        let rest := requestLoop net method url headers params body maxRetries
          fuel retryCount delay (attempt + 1)
        ⟨rest.outcome, req :: rest.requests, rest.sleeps⟩
    else
      ⟨some (.error (.allRetriesFailed url)), [], []⟩

/-- `make_request_with_retries(url, method, headers, params, data,
max_retries, initial_delay)`: starts the loop with `retry_count = 0` and
`delay = initial_delay`; `attempt` starts at the given index into `net`. -/
def make_request_with_retries (net : Nat → HttpResponse α) (url method : String)
    (headers : List (String × String)) (params : Params) (body : Option String)
    (maxRetries initialDelay : Nat) (fuel attempt : Nat) : ReqRun α :=
  requestLoop net method url headers params body maxRetries fuel 0 initialDelay attempt

/-- A network that answers every request with the same status and an empty
body; used for concrete runs of the retry loop. -/
def constNet (s : Nat) : Nat → HttpResponse Nat := fun _ => ⟨s, [], 0⟩

lemma retriable_ne_200 {s : Nat} (h : retriable s = true) : s ≠ 200 := by
  simp only [retriable, Bool.or_eq_true, beq_iff_eq] at h
  rcases h with ((((h | h) | h) | h) | h) <;> omega

lemma doubling_sleeps (d k : Nat) :
    d :: (List.range k).map (fun i => d * 2 * 2 ^ i) =
      (List.range (k + 1)).map (fun i => d * 2 ^ i) := by
  rw [List.range_succ_eq_map]
  simp only [List.map_cons, pow_zero, mul_one, List.map_map, List.cons.injEq, true_and]
  refine List.map_congr_left ?_
  intro i _
  simp [Function.comp, pow_succ]
  ring

/-- When every response is retriable, the loop started at `retryCount = rc`
performs the remaining `maxRetries + 1 - rc` attempts, sleeping the
current delay after each and doubling it, then raises the final
exception naming the URL. -/
lemma requestLoop_all_retriable {α} (net : Nat → HttpResponse α)
    (method url : String) (headers : List (String × String)) (params : Params)
    (body : Option String) (maxRetries : Nat)
    (hnet : ∀ n, retriable (net n).status = true) :
    ∀ fuel rc delay attempt, rc ≤ maxRetries → maxRetries + 2 - rc ≤ fuel →
      requestLoop net method url headers params body maxRetries fuel rc delay attempt =
        ⟨some (.error (.allRetriesFailed url)),
         List.replicate (maxRetries + 1 - rc) ⟨method, url, headers, params, body⟩,
         (List.range (maxRetries + 1 - rc)).map (fun i => delay * 2 ^ i)⟩ := by
  intro fuel
  induction fuel with
  | zero => intro rc d a hrc hf; omega
  | succ fuel ih =>
    intro rc d a hrc hf
    rw [requestLoop, if_pos hrc, if_neg (retriable_ne_200 (hnet a)), if_pos (hnet a)]
    by_cases hlast : rc = maxRetries
    · subst hlast
      obtain ⟨fuel, rfl⟩ : ∃ f, fuel = f + 1 :=
        ⟨fuel - 1, by omega⟩
      rw [requestLoop, if_neg (by omega)]
      simp [List.replicate, List.range_succ]
    · rw [ih (rc + 1) (d * 2) (a + 1) (by omega) (by omega)]
      have h1 : maxRetries + 1 - rc = (maxRetries - rc) + 1 := by omega
      have h2 : maxRetries + 1 - (rc + 1) = maxRetries - rc := by omega
      rw [h1, h2, List.replicate_succ, ← doubling_sleeps d (maxRetries - rc)]

/-- C2: when every response carries a retriable status code
(429, 500, 502, 503, 504), `make_request_with_retries` issues exactly
`max_retries + 1` requests, sleeping between attempts with delays that
start at `initial_delay` and double each time, and finally raises the
exception naming the failing URL. -/
theorem C2_retriable_exhausts_all_retries {α} (net : Nat → HttpResponse α)
    (url method : String) (headers : List (String × String)) (params : Params)
    (body : Option String) (maxRetries initialDelay fuel attempt : Nat)
    (hnet : ∀ n, retriable (net n).status = true)
    (hfuel : maxRetries + 2 ≤ fuel) :
    make_request_with_retries net url method headers params body
        maxRetries initialDelay fuel attempt =
      ⟨some (.error (.allRetriesFailed url)),
       List.replicate (maxRetries + 1) ⟨method, url, headers, params, body⟩,
       (List.range (maxRetries + 1)).map (fun i => initialDelay * 2 ^ i)⟩ := by
  rw [make_request_with_retries,
    requestLoop_all_retriable net method url headers params body maxRetries hnet
      fuel 0 initialDelay attempt (Nat.zero_le _) (by omega)]
  simp

/-- Witness for C2: a concrete all-429 run with the default
`max_retries = 5` and `initial_delay = 1`. -/
theorem C2_retriable_exhausts_all_retries_witness :
    make_request_with_retries (constNet 429) "https://api.example.com/items" "GET"
        [] [] none 5 1 10 0 =
      ⟨some (.error (.allRetriesFailed "https://api.example.com/items")),
       List.replicate 6 ⟨"GET", "https://api.example.com/items", [], [], none⟩,
       (List.range 6).map (fun i => 1 * 2 ^ i)⟩ :=
  C2_retriable_exhausts_all_retries (constNet 429) "https://api.example.com/items"
    "GET" [] [] none 5 1 10 0 (fun _ => rfl) (by omega)

/-- C1 is a code bug, shown on the concrete failing input: a network that
answers 404 to every request. The claim (and the comment in the source)
say the call fails on the first attempt with no retry, but the
`HTTPError` raised by `response.raise_for_status()` is caught by the
`except requests.exceptions.RequestException` handler, so with the
default `max_retries = 5` and `initial_delay = 1` the code issues 6
requests and sleeps 1, 2, 4, 8, 16 seconds before the error escapes. -/
theorem C1_nonretriable_status_is_retried :
    make_request_with_retries (constNet 404) "https://api.example.com/items" "GET"
        [] [] none 5 1 20 0 =
      ⟨some (.error (.httpError 404)),
       List.replicate 6 ⟨"GET", "https://api.example.com/items", [], [], none⟩,
       [1, 2, 4, 8, 16]⟩ := by
  decide

/-- Statuses on which the loop body of `make_request_with_retries` changes
no state at all: not 200, not retriable, and outside the 400–599 range in
which `raise_for_status()` raises (e.g. 201, 204, any 3xx). -/
def unhandledStatus (s : Nat) : Bool :=
  !(s == 200) && !(retriable s) && !(raisesForStatus s)

lemma requestLoop_unhandled_stuck {α} (net : Nat → HttpResponse α)
    (method url : String) (headers : List (String × String)) (params : Params)
    (body : Option String) (maxRetries : Nat)
    (hnet : ∀ n, unhandledStatus (net n).status = true) :
    ∀ fuel rc delay attempt, rc ≤ maxRetries →
      requestLoop net method url headers params body maxRetries fuel rc delay attempt =
        ⟨none, List.replicate fuel ⟨method, url, headers, params, body⟩, []⟩ := by
  intro fuel
  induction fuel with
  | zero => intro rc d a hrc; rfl
  | succ fuel ih =>
    intro rc d a hrc
    have h := hnet a
    simp only [unhandledStatus, Bool.and_eq_true, Bool.not_eq_true',
      beq_eq_false_iff_ne, ne_eq] at h
    rw [requestLoop, if_pos hrc, if_neg h.1.1, if_neg (by simp [h.1.2]),
      if_neg (by simp [h.2]), ih rc d (a + 1) hrc]
    rfl

/-- C9: when every response has a status that is neither 200, nor
retriable, nor one that `raise_for_status()` raises on (e.g. 201), the
loop never terminates: for every number of iterations it has produced no
result and no exception, has re-issued the request once per iteration,
and has never slept (its retry counter and delay never change). -/
theorem C9_unhandled_status_loops_forever {α} (net : Nat → HttpResponse α)
    (url method : String) (headers : List (String × String)) (params : Params)
    (body : Option String) (maxRetries initialDelay attempt : Nat)
    (hnet : ∀ n, unhandledStatus (net n).status = true) :
    ∀ fuel, make_request_with_retries net url method headers params body
        maxRetries initialDelay fuel attempt =
      ⟨none, List.replicate fuel ⟨method, url, headers, params, body⟩, []⟩ := by
  intro fuel
  rw [make_request_with_retries,
    requestLoop_unhandled_stuck net method url headers params body maxRetries hnet
      fuel 0 initialDelay attempt (Nat.zero_le _)]

/-- Witness for C9: a concrete all-201 run, observed for 7 iterations. -/
theorem C9_unhandled_status_loops_forever_witness :
    make_request_with_retries (constNet 201) "https://api.example.com/items" "GET"
        [] [] none 5 1 7 0 =
      ⟨none, List.replicate 7 ⟨"GET", "https://api.example.com/items", [], [], none⟩,
       []⟩ :=
  C9_unhandled_status_loops_forever (constNet 201) "https://api.example.com/items"
    "GET" [] [] none 5 1 0 (fun _ => rfl) 7

/-! The paginated fetcher. -/

/-- Result of running `simple_get_with_pagination`: the outcome (`none`
while a loop is still running on the given fuel, otherwise the returned
list of docs or the propagated exception), the final state of the
caller-supplied `initial_params` dict (which the source mutates in
place), and the request and sleep traces. -/
structure PageRun (α : Type) where
  outcome : Option (Except ReqError (List α))
  finalParams : Params
  requests : List Request
  sleeps : List Nat
deriving DecidableEq

/-- The `while True` loop of `simple_get_with_pagination`, one recursive
call per page. Each iteration sets `initial_params["page"] = page`
(mutating the dict), calls `make_request_with_retries(url, "GET",
headers, params=initial_params)` with its default `max_retries = 5` and
`initial_delay = 1`, and lets any exception it raises propagate. On a
returned 200 response it appends `data["docs"]` to the accumulator,
stops returning the accumulator once `page >= data["pages"]`, and
otherwise moves to the next page; on any other returned response it
stops with the accumulator (the `else: break` branch of the source). -/
def pageLoop (net : Nat → HttpResponse α) (baseUrl endpoint : String)
    (headers : List (String × String)) (innerFuel : Nat) :
    Nat → Nat → Params → List α → Nat → PageRun α
  | 0, _, params, _, _ => ⟨none, params, [], []⟩
  | fuel + 1, page, params, allData, attempt =>
    let url := baseUrl ++ endpoint
    let params1 := setParam params "page" page
    let run := make_request_with_retries net url "GET" headers params1 none
      5 1 innerFuel attempt
    match run.outcome with
    | none => ⟨none, params1, run.requests, run.sleeps⟩
    | some (.error e) => ⟨some (.error e), params1, run.requests, run.sleeps⟩
    | some (.ok r) =>
      if r.status = 200 then
        let allData1 := allData ++ r.docs
        if r.pages ≤ page then
          ⟨some (.ok allData1), params1, run.requests, run.sleeps⟩
        else
          let rest := pageLoop net baseUrl endpoint headers innerFuel
            fuel (page + 1) params1 allData1 (attempt + run.requests.length)
          ⟨rest.outcome, rest.finalParams, run.requests ++ rest.requests,
           run.sleeps ++ rest.sleeps⟩
      else
        ⟨some (.ok allData), params1, run.requests, run.sleeps⟩

/-- `simple_get_with_pagination(base_url, token, initial_params,
endpoint)`: reads the starting page from `initial_params` (default 1),
builds the `Authorization: Bearer <token>` header, and drains the pages
starting from an empty accumulator. -/
def simple_get_with_pagination (net : Nat → HttpResponse α)
    (baseUrl token : String) (initialParams : Params) (endpoint : String)
    (outerFuel innerFuel : Nat) : PageRun α :=
  let page := (getParam initialParams "page").getD 1
  let headers := [("Authorization", "Bearer " ++ token)]
  pageLoop net baseUrl endpoint headers innerFuel outerFuel page initialParams [] 0

/-- A three-page endpoint that always answers 200 and `pages = 3`, with
`docs n` the body of the n-th response. -/
def threePageNet (docs : Nat → List Nat) : Nat → HttpResponse Nat :=
  fun n => ⟨200, docs n, 3⟩

/-- C4: against an endpoint whose every response is a 200 reporting
`pages = 3`, a fetch started with no `page` parameter issues exactly
three GET requests to `base_url + endpoint`, with the `page` parameter
set to 1, 2, 3 in that order, and returns the concatenation of the three
response `docs` lists in page order; no sleeps occur. -/
theorem C4_pagination_drains_three_pages (docs : Nat → List Nat)
    (baseUrl token endpoint : String) :
    simple_get_with_pagination (threePageNet docs) baseUrl token [] endpoint 5 10 =
      ⟨some (.ok (docs 0 ++ docs 1 ++ docs 2)), [("page", 3)],
       [⟨"GET", baseUrl ++ endpoint, [("Authorization", "Bearer " ++ token)],
          [("page", 1)], none⟩,
        ⟨"GET", baseUrl ++ endpoint, [("Authorization", "Bearer " ++ token)],
          [("page", 2)], none⟩,
        ⟨"GET", baseUrl ++ endpoint, [("Authorization", "Bearer " ++ token)],
          [("page", 3)], none⟩],
       []⟩ := by
  rfl

/-- Witness for C4 at fully concrete inputs. -/
theorem C4_pagination_drains_three_pages_witness :
    simple_get_with_pagination (threePageNet (fun n => [n])) "https://api.example.com"
        "tok" [] "/items" 5 10 =
      ⟨some (.ok ([0] ++ [1] ++ [2])), [("page", 3)],
       [⟨"GET", "https://api.example.com" ++ "/items",
          [("Authorization", "Bearer " ++ "tok")], [("page", 1)], none⟩,
        ⟨"GET", "https://api.example.com" ++ "/items",
          [("Authorization", "Bearer " ++ "tok")], [("page", 2)], none⟩,
        ⟨"GET", "https://api.example.com" ++ "/items",
          [("Authorization", "Bearer " ++ "tok")], [("page", 3)], none⟩],
       []⟩ :=
  C4_pagination_drains_three_pages (fun n => [n]) "https://api.example.com" "tok" "/items"

/-- An endpoint whose first response is a 200 with `pages = 3` and docs
`d1`, and whose every later response is a 404. -/
def page2FailsNet (d1 : List Nat) : Nat → HttpResponse Nat :=
  fun n => if n = 0 then ⟨200, d1, 3⟩ else ⟨404, [], 0⟩

/-- Counterexample to C3 as stated: when page 2 of a reported 3 answers
404, `simple_get_with_pagination` does not return normally with the
page-1 docs — the run ends in the propagated `HTTPError`, not in a
normal return of `[7]`. -/
theorem C3_counterexample :
    (simple_get_with_pagination (page2FailsNet [7]) "https://api.example.com" "tok"
        [] "/items" 5 20).outcome = some (.error (.httpError 404)) ∧
      (simple_get_with_pagination (page2FailsNet [7]) "https://api.example.com" "tok"
        [] "/items" 5 20).outcome ≠ some (.ok [7]) := by
  decide

/-- An endpoint whose first response is a 200 with `pages = 3` and docs
`d1`, and whose every later response carries the status `s`. -/
def page2StatusNet (d1 : List Nat) (s : Nat) : Nat → HttpResponse Nat :=
  fun n => if n = 0 then ⟨200, d1, 3⟩ else ⟨s, [], 0⟩

/-- When every response from index `attempt` onwards is retriable, the
retry loop ends in the retries-exhausted exception naming the URL. -/
lemma requestLoop_retriable_outcome {α} (net : Nat → HttpResponse α)
    (method url : String) (headers : List (String × String)) (params : Params)
    (body : Option String) (maxRetries : Nat) :
    ∀ fuel rc delay attempt,
      (∀ n, attempt ≤ n → retriable (net n).status = true) →
      rc ≤ maxRetries → maxRetries + 2 - rc ≤ fuel →
      (requestLoop net method url headers params body maxRetries
        fuel rc delay attempt).outcome = some (.error (.allRetriesFailed url)) := by
  intro fuel
  induction fuel with
  | zero => intro rc d a hnet hrc hf; omega
  | succ fuel ih =>
    intro rc d a hnet hrc hf
    have hs := hnet a (le_refl a)
    rw [requestLoop, if_pos hrc, if_neg (retriable_ne_200 hs), if_pos hs]
    by_cases hlast : rc = maxRetries
    · subst hlast
      obtain ⟨f, rfl⟩ : ∃ f, fuel = f + 1 := ⟨fuel - 1, by omega⟩
      rw [requestLoop, if_neg (by omega)]
    · exact ih (rc + 1) (d * 2) (a + 1) (fun n hn => hnet n (by omega))
        (by omega) (by omega)

/-- When every response from index `attempt` onwards carries the same
non-retriable raising status `s`, the retry loop ends in the `HTTPError`
for `s` (re-raised by the handler once the retry budget is spent). -/
lemma requestLoop_httpError_outcome {α} (net : Nat → HttpResponse α)
    (method url : String) (headers : List (String × String)) (params : Params)
    (body : Option String) (maxRetries : Nat) (s : Nat)
    (hs200 : s ≠ 200) (hsr : retriable s = false) (hsf : raisesForStatus s = true) :
    ∀ fuel rc delay attempt,
      (∀ n, attempt ≤ n → (net n).status = s) →
      rc ≤ maxRetries → maxRetries + 1 - rc ≤ fuel →
      (requestLoop net method url headers params body maxRetries
        fuel rc delay attempt).outcome = some (.error (.httpError s)) := by
  intro fuel
  induction fuel with
  | zero => intro rc d a hnet hrc hf; omega
  | succ fuel ih =>
    intro rc d a hnet hrc hf
    have hsa : (net a).status = s := hnet a (le_refl a)
    rw [requestLoop, if_pos hrc,
      if_neg (show ¬((net a).status = 200) by rw [hsa]; exact hs200),
      if_neg (show ¬(retriable (net a).status = true) by rw [hsa]; simp [hsr]),
      if_pos (show raisesForStatus (net a).status = true by rw [hsa]; exact hsf)]
    by_cases hlast : maxRetries ≤ rc
    · rw [if_pos hlast]
      simp [hsa]
    · rw [if_neg hlast]
      exact ih (rc + 1) (d * 2) (a + 1) (fun n hn => hnet n (by omega))
        (by omega) (by omega)

lemma make_request_retriable_outcome {α} (net : Nat → HttpResponse α)
    (url method : String) (headers : List (String × String)) (params : Params)
    (body : Option String) (maxRetries initialDelay fuel attempt : Nat)
    (hnet : ∀ n, attempt ≤ n → retriable (net n).status = true)
    (hfuel : maxRetries + 2 ≤ fuel) :
    (make_request_with_retries net url method headers params body maxRetries
      initialDelay fuel attempt).outcome = some (.error (.allRetriesFailed url)) := by
  rw [make_request_with_retries]
  exact requestLoop_retriable_outcome net method url headers params body maxRetries
    fuel 0 initialDelay attempt hnet (Nat.zero_le _) (by omega)

lemma make_request_httpError_outcome {α} (net : Nat → HttpResponse α)
    (url method : String) (headers : List (String × String)) (params : Params)
    (body : Option String) (maxRetries initialDelay fuel attempt : Nat) (s : Nat)
    (hs200 : s ≠ 200) (hsr : retriable s = false) (hsf : raisesForStatus s = true)
    (hnet : ∀ n, attempt ≤ n → (net n).status = s)
    (hfuel : maxRetries + 1 ≤ fuel) :
    (make_request_with_retries net url method headers params body maxRetries
      initialDelay fuel attempt).outcome = some (.error (.httpError s)) := by
  rw [make_request_with_retries]
  exact requestLoop_httpError_outcome net method url headers params body maxRetries
    s hs200 hsr hsf fuel 0 initialDelay attempt hnet (Nat.zero_le _) (by omega)

/-- When the retry helper called by a pagination iteration raises, the
exception propagates out of the pagination loop. -/
lemma pageLoop_error_step {α} (net : Nat → HttpResponse α)
    (baseUrl endpoint : String) (headers : List (String × String))
    (innerFuel fuel page : Nat) (params : Params) (allData : List α)
    (attempt : Nat) (e : ReqError)
    (h : (make_request_with_retries net (baseUrl ++ endpoint) "GET" headers
        (setParam params "page" page) none 5 1 innerFuel attempt).outcome =
      some (.error e)) :
    (pageLoop net baseUrl endpoint headers innerFuel (fuel + 1) page params
      allData attempt).outcome = some (.error e) := by
  simp only [pageLoop]
  rw [h]

/-- C3 amended: when the request for page 2 of a reported 3 yields an
error status `s` in 400..599 on every attempt, the exception raised by
`make_request_with_retries` propagates out of
`simple_get_with_pagination` and the docs accumulated from page 1 are
not returned: the error is the retries-exhausted exception naming the
URL when `s` is retriable, and the `HTTPError` for `s` otherwise. The
`else: break` branch of the source that would return partial results is
unreachable, because the retry helper only ever returns 200 responses
and raises otherwise. -/
theorem C3_error_page_propagates_exception (d1 : List Nat)
    (baseUrl token endpoint : String) (s : Nat)
    (hs : raisesForStatus s = true) :
    ∃ e : ReqError,
      (simple_get_with_pagination (page2StatusNet d1 s) baseUrl token []
        endpoint 5 20).outcome = some (.error e) ∧
      (retriable s = true → e = .allRetriesFailed (baseUrl ++ endpoint)) ∧
      (retriable s = false → e = .httpError s) := by
  have hs400 : 400 ≤ s ∧ s < 600 := by
    simpa [raisesForStatus] using hs
  have hnet : ∀ n, 1 ≤ n → (page2StatusNet d1 s n).status = s := by
    intro n hn
    have hne : n ≠ 0 := by omega
    simp [page2StatusNet, hne]
  have hstep : (simple_get_with_pagination (page2StatusNet d1 s) baseUrl token []
      endpoint 5 20).outcome =
      (pageLoop (page2StatusNet d1 s) baseUrl endpoint
        [("Authorization", "Bearer " ++ token)] 20 4 2 [("page", 1)] d1 1).outcome := rfl
  by_cases hr : retriable s = true
  · refine ⟨.allRetriesFailed (baseUrl ++ endpoint), ?_, fun _ => rfl,
      fun hc => by rw [hr] at hc; cases hc⟩
    rw [hstep]
    refine pageLoop_error_step _ _ _ _ 20 3 2 [("page", 1)] d1 1 _ ?_
    exact make_request_retriable_outcome _ _ _ _ _ _ _ _ _ _
      (fun n hn => by rw [hnet n hn]; exact hr) (by omega)
  · have hrf : retriable s = false := by
      revert hr
      cases retriable s <;> simp
    refine ⟨.httpError s, ?_, fun hc => absurd hc hr, fun _ => rfl⟩
    rw [hstep]
    refine pageLoop_error_step _ _ _ _ 20 3 2 [("page", 1)] d1 1 _ ?_
    exact make_request_httpError_outcome _ _ _ _ _ _ _ _ _ _ s (by omega) hrf hs
      (fun n hn => hnet n hn) (by omega)

/-- Witness for C3 amended, at fully concrete inputs: a persistent 404 on
page 2. -/
theorem C3_error_page_propagates_exception_witness :
    ∃ e : ReqError,
      (simple_get_with_pagination (page2StatusNet [7] 404) "https://api.example.com"
        "tok" [] "/items" 5 20).outcome = some (.error e) ∧
      (retriable 404 = true → e = .allRetriesFailed ("https://api.example.com" ++ "/items")) ∧
      (retriable 404 = false → e = .httpError 404) :=
  C3_error_page_propagates_exception [7] "https://api.example.com" "tok" "/items"
    404 (by decide)

/-! The frame effect of pagination on `initial_params`. -/

lemma getParam_setParam (ps : Params) (k : String) (v : Nat) :
    getParam (setParam ps k v) k = some v := by
  induction ps with
  | nil => simp [setParam, getParam]
  | cons p ps ih =>
    by_cases hp : p.1 = k
    · simp [setParam, getParam, hp]
    · by_cases hany : ps.any (fun q => q.1 = k) <;>
        simp_all [setParam, getParam, hp, hany]

/-- Every request `make_request_with_retries` issues carries the method,
URL, headers, params and body it was called with. -/
lemma requestLoop_requests_replicate {α} (net : Nat → HttpResponse α)
    (method url : String) (headers : List (String × String)) (params : Params)
    (body : Option String) (maxRetries : Nat) :
    ∀ fuel rc delay attempt, ∃ k,
      (requestLoop net method url headers params body maxRetries
        fuel rc delay attempt).requests =
        List.replicate k (⟨method, url, headers, params, body⟩ : Request) := by
  intro fuel
  induction fuel with
  | zero => intro rc d a; exact ⟨0, rfl⟩
  | succ fuel ih =>
    intro rc d a
    simp only [requestLoop]
    split_ifs
    case _ => exact ⟨1, rfl⟩
    case _ =>
      obtain ⟨k, hk⟩ := ih (rc + 1) (d * 2) (a + 1)
      exact ⟨k + 1, by simp [hk, List.replicate_succ]⟩
    case _ => exact ⟨1, rfl⟩
    case _ =>
      obtain ⟨k, hk⟩ := ih (rc + 1) (d * 2) (a + 1)
      exact ⟨k + 1, by simp [hk, List.replicate_succ]⟩
    case _ =>
      obtain ⟨k, hk⟩ := ih rc d (a + 1)
      exact ⟨k + 1, by simp [hk, List.replicate_succ]⟩
    case _ => exact ⟨0, rfl⟩

/-- With fuel left and the loop guard true, at least one request goes out. -/
lemma requestLoop_requests_ne_nil {α} (net : Nat → HttpResponse α)
    (method url : String) (headers : List (String × String)) (params : Params)
    (body : Option String) (maxRetries : Nat)
    (fuel rc delay attempt : Nat) (hf : 0 < fuel) (hrc : rc ≤ maxRetries) :
    (requestLoop net method url headers params body maxRetries
      fuel rc delay attempt).requests ≠ [] := by
  obtain ⟨f, rfl⟩ : ∃ f, fuel = f + 1 := ⟨fuel - 1, by omega⟩
  simp only [requestLoop]
  split_ifs <;> simp_all

lemma getLast?_replicate_of_ne_nil {α} {l : List α} {r : α} {k : Nat}
    (h : l = List.replicate k r) (hne : l ≠ []) : l.getLast? = some r := by
  subst h
  obtain ⟨k, rfl⟩ : ∃ j, k = j + 1 := by
    refine ⟨k - 1, ?_⟩
    rcases k with _ | k
    · simp at hne
    · omega
  rw [List.replicate_succ', List.getLast?_concat]

/-- The run of `make_request_with_retries` started by one pagination
iteration ends with a request carrying exactly the params it was given. -/
lemma make_request_last_request {α} (net : Nat → HttpResponse α)
    (url method : String) (headers : List (String × String)) (params : Params)
    (body : Option String) (maxRetries initialDelay fuel attempt : Nat)
    (hf : 0 < fuel) :
    (make_request_with_retries net url method headers params body maxRetries
      initialDelay fuel attempt).requests.getLast? =
      some ⟨method, url, headers, params, body⟩ := by
  obtain ⟨k, hk⟩ := requestLoop_requests_replicate net method url headers params body
    maxRetries fuel 0 initialDelay attempt
  exact getLast?_replicate_of_ne_nil hk
    (requestLoop_requests_ne_nil net method url headers params body maxRetries
      fuel 0 initialDelay attempt hf (Nat.zero_le _))

/-- Invariant of the pagination loop: the final params value is exactly
the params of the last request issued, and its `page` entry is set. -/
lemma pageLoop_finalParams {α} (net : Nat → HttpResponse α)
    (baseUrl endpoint : String) (headers : List (String × String))
    (innerFuel : Nat) (hinner : 0 < innerFuel) :
    ∀ fuel page params allData attempt, 0 < fuel →
      ∃ r q,
        (pageLoop net baseUrl endpoint headers innerFuel
          fuel page params allData attempt).requests.getLast? = some r ∧
        (pageLoop net baseUrl endpoint headers innerFuel
          fuel page params allData attempt).finalParams = r.params ∧
        getParam r.params "page" = some q := by
  intro fuel
  induction fuel with
  | zero => intro page params allData attempt h; omega
  | succ fuel ih =>
    intro page params allData attempt _
    simp only [pageLoop]
    have hlast := make_request_last_request net (baseUrl ++ endpoint) "GET" headers
      (setParam params "page" page) none 5 1 innerFuel attempt hinner
    split
    · exact ⟨_, page, hlast, rfl, getParam_setParam params "page" page⟩
    · exact ⟨_, page, hlast, rfl, getParam_setParam params "page" page⟩
    · split_ifs
      · exact ⟨_, page, hlast, rfl, getParam_setParam params "page" page⟩
      · rcases Nat.eq_zero_or_pos fuel with hf | hf
        · subst hf
          simp only [pageLoop, List.append_nil]
          exact ⟨_, page, hlast, rfl, getParam_setParam params "page" page⟩
        · obtain ⟨r, q, h1, h2, h3⟩ := ih (page + 1) (setParam params "page" page)
            (allData ++ _) (attempt + _) hf
          refine ⟨r, q, ?_, h2, h3⟩
          rw [List.getLast?_append_of_ne_nil _ (by
            intro hnil
            rw [hnil] at h1
            simp at h1)]
          exact h1
      · exact ⟨_, page, hlast, rfl, getParam_setParam params "page" page⟩

/-- C10: `simple_get_with_pagination` leaves the caller-supplied
`initial_params` dict mutated: after the call its `page` entry equals
the `page` parameter of the last request issued (the final params value
is exactly the params of that request), so if the caller passed a dict
with no `page` key the dict does not come back unchanged. -/
theorem C10_pagination_mutates_initial_params {α} (net : Nat → HttpResponse α)
    (baseUrl token endpoint : String) (initialParams : Params)
    (outerFuel innerFuel : Nat) (houter : 0 < outerFuel) (hinner : 0 < innerFuel) :
    ∃ r q,
      (simple_get_with_pagination net baseUrl token initialParams endpoint
        outerFuel innerFuel).requests.getLast? = some r ∧
      (simple_get_with_pagination net baseUrl token initialParams endpoint
        outerFuel innerFuel).finalParams = r.params ∧
      getParam r.params "page" = some q ∧
      (getParam initialParams "page" = none →
        (simple_get_with_pagination net baseUrl token initialParams endpoint
          outerFuel innerFuel).finalParams ≠ initialParams) := by
  obtain ⟨r, q, h1, h2, h3⟩ := pageLoop_finalParams net baseUrl endpoint
    [("Authorization", "Bearer " ++ token)] innerFuel hinner
    outerFuel ((getParam initialParams "page").getD 1) initialParams [] 0 houter
  refine ⟨r, q, h1, h2, h3, ?_⟩
  intro hnone heq
  simp only [simple_get_with_pagination] at heq
  rw [heq] at h2
  rw [← h2] at h3
  rw [hnone] at h3
  exact Option.noConfusion h3

/-- Witness for C10: a concrete single-page fetch with no `page` key in
the initial params. -/
theorem C10_pagination_mutates_initial_params_witness :
    ∃ r q,
      (simple_get_with_pagination (constNet 200) "https://api.example.com" "tok"
        [] "/items" 3 10).requests.getLast? = some r ∧
      (simple_get_with_pagination (constNet 200) "https://api.example.com" "tok"
        [] "/items" 3 10).finalParams = r.params ∧
      getParam r.params "page" = some q ∧
      (getParam ([] : Params) "page" = none →
        (simple_get_with_pagination (constNet 200) "https://api.example.com" "tok"
          [] "/items" 3 10).finalParams ≠ []) :=
  C10_pagination_mutates_initial_params (constNet 200) "https://api.example.com"
    "tok" "/items" [] 3 10 (by omega) (by omega)

/-! The token fetcher. -/

/-- The login response: HTTP status code and JSON body, a flat object of
string fields as returned by the login endpoint. -/
structure LoginResponse where
  status : Nat
  body : List (String × String)
deriving DecidableEq

/-- Python `response.json().get(k)` on a flat JSON object. -/
def getField (body : List (String × String)) (k : String) : Option String :=
  (body.find? (fun p => p.1 = k)).map (fun p => p.2)

/-- `fetch_token(base_url, login_endpoint, credentials, headers)`: POSTs
the credentials to `f"{base_url}/{login_endpoint}"` — here `net` maps
the full URL and credentials to the single response. On status 200 it
returns `response.json().get("token")`, which is `None` when the field
is absent (the `except KeyError` branch of the source is unreachable,
since `dict.get` never raises); on any other status it prints
diagnostics and returns `None`. The printed output carries no data the
claims mention and is not modelled. -/
def fetch_token (net : String → List (String × String) → LoginResponse)
    (baseUrl loginEndpoint : String)
    (credentials : List (String × String)) : Option String :=
  let response := net (baseUrl ++ "/" ++ loginEndpoint) credentials
  if response.status = 200 then
    getField response.body "token"
  else
    none

/-- C7: `fetch_token` returns the exact string value of the `token` field
of a 200 response, returns `None` (not an exception) on a 401 response
whatever its body, and returns `None` (not an exception) when a 200
response carries no `token` field. -/
theorem C7_fetch_token_token_extraction (baseUrl loginEndpoint : String)
    (credentials : List (String × String)) :
    (∀ t, fetch_token (fun _ _ => ⟨200, [("token", t)]⟩)
        baseUrl loginEndpoint credentials = some t) ∧
    (∀ body, fetch_token (fun _ _ => ⟨401, body⟩)
        baseUrl loginEndpoint credentials = none) ∧
    (∀ body, getField body "token" = none →
      fetch_token (fun _ _ => ⟨200, body⟩) baseUrl loginEndpoint credentials = none) := by
  refine ⟨fun t => rfl, fun body => rfl, fun body h => ?_⟩
  simpa [fetch_token] using h

/-- Witness for C7: the three cases at fully concrete inputs, including
the body `{"token": "abc123"}` from the spec. -/
theorem C7_fetch_token_token_extraction_witness :
    fetch_token (fun _ _ => ⟨200, [("token", "abc123")]⟩)
        "https://api.example.com" "login" [("username", "u")] = some "abc123" ∧
    fetch_token (fun _ _ => ⟨401, [("error", "denied")]⟩)
        "https://api.example.com" "login" [("username", "u")] = none ∧
    fetch_token (fun _ _ => ⟨200, [("status", "ok")]⟩)
        "https://api.example.com" "login" [("username", "u")] = none :=
  ⟨(C7_fetch_token_token_extraction "https://api.example.com" "login"
      [("username", "u")]).1 "abc123",
   (C7_fetch_token_token_extraction "https://api.example.com" "login"
      [("username", "u")]).2.1 [("error", "denied")],
   (C7_fetch_token_token_extraction "https://api.example.com" "login"
      [("username", "u")]).2.2 [("status", "ok")] (by decide)⟩

/-! The record transformer. -/

/-- A scalar value in a JSON record or a DataFrame cell. -/
inductive Value where
  | str (s : String)
  | nat (n : Nat)
deriving DecidableEq

/-- A pandas DataFrame: named columns and rows of cells aligned
positionally with the columns; a `none` cell is a missing value (NaN). -/
structure DataFrame where
  columns : List String
  rows : List (List (Option Value))
deriving DecidableEq

/-- The pandas exceptions `process_json_data` can raise: `keyNotFound c`
is the `KeyError` for a column `c` absent from a frame; `typeError` is
the `TypeError` raised by `" ".join` over non-string cells. -/
inductive PdError where
  | keyNotFound (c : String)
  | typeError
deriving DecidableEq

/-- One raw record: a flat JSON object. The claims only exercise flat
records, so `pd.json_normalize` amounts to plain table building here
(no dotted flattening of nested objects is needed). -/
abbrev Record := List (String × Value)

def lookupRecord (r : Record) (k : String) : Option Value :=
  (r.find? (fun p => p.1 = k)).map (fun p => p.2)

def addUnique (acc : List String) (k : String) : List String :=
  if k ∈ acc then acc else acc ++ [k]

/-- Column labels of `pd.json_normalize`: record keys in order of first
appearance across the records. -/
def collectColumns (records : List Record) : List String :=
  records.foldl (fun acc r => r.foldl (fun acc2 p => addUnique acc2 p.1) acc) []

/-- `pd.json_normalize(raw_data)` on flat records: one row per record,
one column per distinct key, missing keys filled with NaN. -/
def pd_json_normalize (records : List Record) : DataFrame :=
  let cols := collectColumns records
  ⟨cols, records.map (fun r => cols.map (fun c => lookupRecord r c))⟩

/-- `df.rename(columns=mappings, inplace=True)`: relabel every column
that appears in the mapping; rows are untouched. -/
def renameColumns (df : DataFrame) (m : List (String × String)) : DataFrame :=
  ⟨df.columns.map (fun c => ((m.find? (fun p => p.1 = c)).map (fun p => p.2)).getD c),
   df.rows⟩

/-- Position of the column labelled `c`, if present. -/
def colIdx : List String → String → Option Nat
  | [], _ => none
  | d :: ds, c => if d = c then some 0 else (colIdx ds c).map (fun i => i + 1)

/-- The cell of `row` in the column labelled `c` (NaN when absent). -/
def cellAt (cols : List String) (row : List (Option Value)) (c : String) : Option Value :=
  match colIdx cols c with
  | none => none
  | some i => row.getD i none

/-- `" ".join` over the cells of `fields` in one row, as run by
`df[fields].agg(" ".join, axis=1)`: every cell must be a string, since
`str.join` raises `TypeError` on any non-string element. -/
def joinCells (cols : List String) (row : List (Option Value))
    (fields : List String) : Except PdError Value :=
  match fields.mapM (fun f =>
      match cellAt cols row f with
      | some (.str s) => Except.ok s
      | _ => Except.error PdError.typeError) with
  | .error e => .error e
  | .ok strs => .ok (.str (String.intercalate " " strs))

/-- `df[c] = vals`: overwrite the column if it exists, else append it. -/
def setColumn (df : DataFrame) (c : String) (vals : List Value) : DataFrame :=
  match colIdx df.columns c with
  | some i => ⟨df.columns, (df.rows.zip vals).map (fun rv => rv.1.set i (some rv.2))⟩
  | none => ⟨df.columns ++ [c], (df.rows.zip vals).map (fun rv => rv.1 ++ [some rv.2])⟩

/-- One entry `(new_field, fields)` of the concat loop:
`df[new_field] = df[fields].agg(" ".join, axis=1)`. The selection
`df[fields]` raises `KeyError` when one of `fields` is not a column of
`df` — no silent null fill. -/
def concatOne (df : DataFrame) (newField : String) (fields : List String) :
    Except PdError DataFrame :=
  match fields.find? (fun f => !(df.columns.contains f)) with
  | some f => .error (.keyNotFound f)
  | none =>
    match df.rows.mapM (fun row => joinCells df.columns row fields) with
    | .error e => .error e
    | .ok vals => .ok (setColumn df newField vals)

/-- The `for new_field, fields in concat_fields` loop, an exception from
any entry aborting the whole call. -/
def concatStage (df : DataFrame) : List (String × List String) → Except PdError DataFrame
  | [] => .ok df
  | (nf, fields) :: rest =>
    match concatOne df nf fields with
    | .error e => .error e
    | .ok df1 => concatStage df1 rest

/-- `df.merge(join_data, on="common_column", how="left")` — the join key
is the fixed label `"common_column"` in the source, not a parameter.
Raises `KeyError` when either frame lacks that column. Otherwise keeps
every left row, paired with each right row whose key cell equals its own
(pandas merge matches NaN keys to each other, so a NaN key pairs with
NaN keys on the right); the right columns other than the key are
appended after the left columns and NaN-filled when no right row
matches. -/
def mergeLeft (df jd : DataFrame) : Except PdError DataFrame :=
  match colIdx df.columns "common_column", colIdx jd.columns "common_column" with
  | some i, some j =>
    let rightCols := jd.columns.eraseIdx j
    let rows := df.rows.flatMap (fun row =>
      let key := row.getD i none
      let hits := jd.rows.filter (fun s => s.getD j none == key)
      if hits.isEmpty then [row ++ List.replicate rightCols.length none]
      else hits.map (fun s => row ++ s.eraseIdx j))
    .ok ⟨df.columns ++ rightCols, rows⟩
  | _, _ => .error (.keyNotFound "common_column")

/-- `df[limit_fields]`: project to the listed columns in the given order;
raises `KeyError` when one of them is not a column. -/
def limitStage (df : DataFrame) (lf : List String) : Except PdError DataFrame :=
  match lf.find? (fun f => !(df.columns.contains f)) with
  | some f => .error (.keyNotFound f)
  | none => .ok ⟨lf, df.rows.map (fun row => lf.map (fun c => cellAt df.columns row c))⟩

/-- `if column_mappings:` — skipped when the argument is `None` or an
empty mapping (Python truthiness). -/
def renameApplied (df : DataFrame) : Option (List (String × String)) → DataFrame
  | some m => if m.isEmpty then df else renameColumns df m
  | none => df

/-- `if concat_fields:` — skipped when `None` or empty. -/
def concatApplied (df : DataFrame) :
    Option (List (String × List String)) → Except PdError DataFrame
  | some cfs => if cfs.isEmpty then .ok df else concatStage df cfs
  | none => .ok df

/-- `if join_data is not None:` — an identity test, so even an empty
frame is joined. -/
def joinApplied (df : DataFrame) : Option DataFrame → Except PdError DataFrame
  | some jd => mergeLeft df jd
  | none => .ok df

/-- `if limit_fields:` — skipped when `None` or empty. -/
def limitApplied (df : DataFrame) : Option (List String) → Except PdError DataFrame
  | some lf => if lf.isEmpty then .ok df else limitStage df lf
  | none => .ok df

/-- `process_json_data(raw_data, join_data, column_mappings,
concat_fields, limit_fields)`: normalize, rename, concatenate, join,
project — in that order, each step skipped when its configuration is
absent, and any pandas exception propagating immediately. -/
def process_json_data (rawData : List Record) (joinData : Option DataFrame)
    (columnMappings : Option (List (String × String)))
    (concatFields : Option (List (String × List String)))
    (limitFields : Option (List String)) : Except PdError DataFrame :=
  let df := renameApplied (pd_json_normalize rawData) columnMappings
  match concatApplied df concatFields with
  | .error e => .error e
  | .ok df1 =>
    match joinApplied df1 joinData with
    | .error e => .error e
    | .ok df2 => limitApplied df2 limitFields

/-- C6: the record-transformer example of the spec, end to end: one
record with `first_name`, `last_name` and `id`, a concat of the two name
fields into `full_name`, and a projection to `id` and `full_name`,
yields exactly one row with `id = 1` and `full_name = "A B"` and exactly
those two columns. -/
theorem C6_record_transformer_example :
    process_json_data
        [[("first_name", .str "A"), ("last_name", .str "B"), ("id", .nat 1)]]
        none none
        (some [("full_name", ["first_name", "last_name"])])
        (some ["id", "full_name"]) =
      .ok ⟨["id", "full_name"], [[some (.nat 1), some (.str "A B")]]⟩ := by
  decide

/-- C5 is a code bug, shown on the example of the function docstring
itself: a record with a `user_id` key and a `join_data` frame keyed by
`user_id`. The claim (and the docstring) describe a join on a
caller-chosen shared key column, but the source has no join-key
parameter at all and always calls
`df.merge(join_data, on="common_column", how="left")`, so the documented
example raises `KeyError("common_column")` instead of joining. -/
theorem C5_join_key_is_hardcoded :
    process_json_data [[("user_id", .nat 1), ("first_name", .str "John")]]
        (some ⟨["user_id", "community"], [[some (.nat 1), some (.str "Community A")]]⟩)
        none none none =
      .error (.keyNotFound "common_column") := by
  decide

lemma colIdx_eq_none_of_not_mem {cols : List String} {c : String} (h : c ∉ cols) :
    colIdx cols c = none := by
  induction cols with
  | nil => rfl
  | cons d ds ih =>
    have hd : d ≠ c := by
      intro e
      exact h (e ▸ List.mem_cons_self d ds)
    have hds : c ∉ ds := fun hm => h (List.mem_cons_of_mem d hm)
    simp [colIdx, hd, ih hds]

/-- C8: `process_json_data` surfaces missing columns as a
column-not-found error with no partial result. First part: when the
first concat entry names a source column absent from the (normalized and
renamed) data, the call returns a `KeyError` — it does not fill nulls.
Second part: when the concat steps succeed but the join key column
`common_column` is absent from the data or from `join_data`, the call
returns `KeyError("common_column")`. In both cases the error is the
whole result: no frame is returned. -/
theorem C8_missing_column_errors :
    (∀ (raw : List Record) (jd : Option DataFrame)
       (m : Option (List (String × String))) (nf : String)
       (fields : List String) (rest : List (String × List String))
       (lf : Option (List String)) (f : String),
       f ∈ fields →
       f ∉ (renameApplied (pd_json_normalize raw) m).columns →
       ∃ g, process_json_data raw jd m (some ((nf, fields) :: rest)) lf =
         .error (.keyNotFound g)) ∧
    (∀ (raw : List Record) (m : Option (List (String × String)))
       (cf : Option (List (String × List String))) (lf : Option (List String))
       (jd df1 : DataFrame),
       concatApplied (renameApplied (pd_json_normalize raw) m) cf = .ok df1 →
       "common_column" ∉ df1.columns ∨ "common_column" ∉ jd.columns →
       process_json_data raw (some jd) m cf lf =
         .error (.keyNotFound "common_column")) := by
  constructor
  · intro raw jd m nf fields rest lf f hf hnot
    have hfind : (fields.find? (fun x =>
        !((renameApplied (pd_json_normalize raw) m).columns.contains x))).isSome := by
      rw [List.find?_isSome]
      exact ⟨f, hf, by simpa using hnot⟩
    obtain ⟨g, hg⟩ := Option.isSome_iff_exists.mp hfind
    have hred : concatOne (renameApplied (pd_json_normalize raw) m) nf fields =
        .error (.keyNotFound g) := by
      simp only [concatOne, hg]
    refine ⟨g, ?_⟩
    simp [process_json_data, concatApplied, concatStage, hred]
  · intro raw m cf lf jd df1 hok hmiss
    simp only [process_json_data, hok, joinApplied, mergeLeft]
    rcases hmiss with h | h
    · rcases h2 : colIdx jd.columns "common_column" with _ | j <;>
        simp [colIdx_eq_none_of_not_mem h, h2]
    · rcases h1 : colIdx df1.columns "common_column" with _ | i <;>
        simp [colIdx_eq_none_of_not_mem h, h1]

/-- Witness for C8: a one-record table with a single column `a`; the
concat entry names the absent column `missing`, and the join against a
frame with a single column `k` lacks `common_column` on both sides. -/
theorem C8_missing_column_errors_witness :
    (∃ g, process_json_data [[("a", Value.nat 1)]] none none
        (some [("x", ["missing"])]) none = .error (.keyNotFound g)) ∧
    process_json_data [[("a", Value.nat 1)]] (some ⟨["k"], []⟩) none none none =
      .error (.keyNotFound "common_column") :=
  ⟨C8_missing_column_errors.1 [[("a", Value.nat 1)]] none none "x" ["missing"] []
      none "missing" (by decide) (by decide),
   C8_missing_column_errors.2 [[("a", Value.nat 1)]] none none none ⟨["k"], []⟩
      ⟨["a"], [[some (Value.nat 1)]]⟩ (by decide) (Or.inl (by decide))⟩

end Automations
